import Mathlib

/-!
# web-go: health-state machine, stress generators and configuration loading

A shallow embedding of `main.go`.  Package-level variables become the fields of
`World`; every HTTP handler becomes a function on a `World` and a
`ResponseWriter`; goroutines started with `go` are recorded in the world as
`Task`s, and their bodies are given as separate functions.  The operating
system, the random source and the YAML parser are taken as an interface `OS`.
-/

namespace WebGo

/-! ## Go values -/

/-- One byte of a Go string. -/
abbrev Byte := Fin 256

/-- A Go string seen as its bytes (used where the code inspects bytes). -/
abbrev GoString := List Byte

/-- The bytes of an ASCII literal. -/
def ascii (s : String) : GoString := s.toList.map (fun c => Fin.ofNat c.toNat)

/-- Two's-complement wrap of an integer to `int64`. -/
def wrapInt64 (x : Int) : Int := (x + 2 ^ 63) % 2 ^ 64 - 2 ^ 63

/-- Formatting verb `%d` applied to an `int`. -/
def fmtD (n : Int) : String := toString n

/-- Formatting verb `%v` applied to a `bool`. -/
def fmtBool (b : Bool) : String := toString b

/-! ## Data model (main.go lines 15-43) -/

/-- The `Config` struct. -/
structure Config where
  Role : String
  Version : String
  Profile : String
  PathPersistent : String
  PathPod : String
  PostgresqlFilepath : String
  DbDriver : String
  DbUrl : String
  DbUser : String
  DbPass : String
deriving DecidableEq, Repr

/-- The `SecretYaml` struct; a key absent from the document leaves its field `""`. -/
structure SecretYaml where
  DriverClassName : String
  Url : String
  Username : String
  Password : String
deriving DecidableEq, Repr

/-- A goroutine started by a `go` statement, with the values it was started with. -/
inductive Task where
  | memoryLeak
  | cpuLoad (min thread : Int)
  | cpuLoadWorker (hostname : String) (id min duration : Int)
deriving DecidableEq, Repr

/-- What the program uses of its environment: host, process environment, file
system, random source, path joining and the YAML parser, over an external state `σ`. -/
structure OS (σ : Type) where
  hostname : σ → String
  lookupEnv : σ → String → Option String
  readFile : σ → String → Except String GoString
  yamlUnmarshal : GoString → Except String SecretYaml
  statNotExist : σ → String → Bool
  mkdirAll : σ → String → σ
  randIntn : σ → Nat → Nat × σ
  pathJoin : String → String → String
  create : σ → String → Bool × σ
  readDir : σ → String → Option (List String)

/-- The package-level variables, standard output, the started goroutines and the
external state. -/
structure World (σ : Type) where
  isAppReady : Bool
  isAppLive : Bool
  memoryStore : List (List Byte)
  config : Config
  stdout : List String
  goroutines : List Task
  os : σ

/-- State of an `http.ResponseWriter` while a handler runs. -/
structure ResponseWriter where
  status : Option Nat
  header : List (String × String)
  body : String
deriving DecidableEq, Repr

/-- What the client receives. -/
structure Response where
  status : Nat
  header : List (String × String)
  body : String
deriving DecidableEq, Repr

def StatusOK : Nat := 200

def StatusInternalServerError : Nat := 500

namespace ResponseWriter

/-- A fresh writer: no header written yet. -/
def new : ResponseWriter := ⟨none, [], ""⟩

/-- Method `Write`: the first write sends status 200 unless a header was written. -/
def write (w : ResponseWriter) (b : String) : ResponseWriter :=
  { w with status := some (w.status.getD StatusOK), body := w.body ++ b }

/-- Method `WriteHeader`: only the first header counts. -/
def writeHeader (w : ResponseWriter) (code : Nat) : ResponseWriter :=
  match w.status with
  | none => { w with status := some code }
  | some _ => w

/-- The call `Header().Set`: no effect once the header has been written. -/
def setHeader (w : ResponseWriter) (k v : String) : ResponseWriter :=
  match w.status with
  | none => { w with header := (k, v) :: w.header.filter (fun kv => kv.1 != k) }
  | some _ => w

/-- When the handler returns without writing, the server sends status 200. -/
def finish (w : ResponseWriter) : Response :=
  ⟨w.status.getD StatusOK, w.header, w.body⟩

end ResponseWriter

/-- The query part of a request URL: keys with their values, in order. -/
abbrev Query := List (String × GoString)

/-- Method `Get` of `url.Values`: the first value of the key, `""` when there is none. -/
def Query.get (q : Query) (key : String) : GoString :=
  match q.find? (fun kv => kv.1 == key) with
  | some kv => kv.2
  | none => []

/-- The registered patterns. -/
inductive Endpoint where
  | hello | hostname | version
  | ready | liveness | startup | readiness
  | trafficOff | trafficOn | serverError
  | memoryLeak | cpuLoad
  | info | properties
  | createFilePv | listFilePv | createFilePod | listFilePod
deriving DecidableEq, Repr

/-- A request routed to a registered pattern. -/
structure Request where
  endpoint : Endpoint
  query : Query

/-! ## Package strconv of the Go standard library, for a 64-bit `int` -/

/-- The two causes a `*NumError` can carry. -/
inductive NumErr where
  | errSyntax
  | errRange
deriving DecidableEq, Repr

def maxUint64 : Nat := 2 ^ 64 - 1

/-- The helper `lower`: `c | ('x' - 'X')`. -/
def lower (c : Byte) : Nat := c.val ||| 0x20

/-- The loop of `ParseUint` for base 10 (so `base0` is false and `_` is an
ordinary invalid byte): `n` is the value accumulated so far. -/
def parseUintLoop (cutoff maxVal : Nat) : List Byte → Nat → Nat × Option NumErr
  | [], n => (n, none)
  | c :: cs, n =>
    let d : Option Nat :=
      if 48 ≤ c.val ∧ c.val ≤ 57 then some (c.val - 48)
      else if 97 ≤ lower c ∧ lower c ≤ 122 then some (lower c - 97 + 10)
      else none
    match d with
    | none => (0, some .errSyntax)
    | some d =>
      if d ≥ 10 then (0, some .errSyntax)
      else if n ≥ cutoff then (maxVal, some .errRange)
      else
        let n10 := n * 10 % 2 ^ 64
        let n1 := (n10 + d) % 2 ^ 64
        if n1 < n10 ∨ n1 > maxVal then (maxVal, some .errRange)
        else parseUintLoop cutoff maxVal cs n1

/-- The call `ParseUint(s, 10, 0)` with `IntSize = 64`. -/
def ParseUint (s : GoString) : Nat × Option NumErr :=
  if s = [] then (0, some .errSyntax)
  else parseUintLoop (maxUint64 / 10 + 1) (2 ^ 64 - 1) s 0

/-- The call `ParseInt(s, 10, 0)` with `IntSize = 64`. -/
def ParseInt (s : GoString) : Int × Option NumErr :=
  match s with
  | [] => (0, some .errSyntax)
  | c :: rest =>
    let neg := c.val = 45
    let s1 := if c.val = 43 then rest else if c.val = 45 then rest else s
    let r := ParseUint s1
    if r.2 = some .errSyntax then (0, some .errSyntax)
    else
      let un := r.1
      let cutoff : Nat := 2 ^ 63
      if ¬ neg ∧ un ≥ cutoff then (((cutoff - 1 : Nat) : Int), some .errRange)
      else if neg ∧ un > cutoff then (-(cutoff : Int), some .errRange)
      else
        let n := wrapInt64 un
        (if neg then wrapInt64 (-n) else n, none)

/-- The fast-path loop of `Atoi`: `ch -= '0'` on a byte, then `ch > 9`. -/
def atoiFastLoop : List Byte → Int → Option Int
  | [], n => some n
  | ch :: cs, n =>
    let ch' := (ch.val + 256 - 48) % 256
    if ch' > 9 then none
    else atoiFastLoop cs (n * 10 + ch')

/-- The function `strconv.Atoi` with `intSize = 64`: the value and the error. -/
def Atoi (s : GoString) : Int × Option NumErr :=
  match s with
  | [] => ParseInt s
  | c :: rest =>
    if s.length < 19 then
      let signed := c.val = 45 ∨ c.val = 43
      if signed ∧ rest.length < 1 then (0, some .errSyntax)
      else
        match atoiFastLoop (if signed then rest else s) 0 with
        | none => (0, some .errSyntax)
        | some n => (if c.val = 45 then -n else n, none)
    else ParseInt s

/-! ## float64 arithmetic (IEEE 754 binary64, round to nearest, ties to even)

Only finite values in the normal range are needed: a value is `± mant * 2 ^ exp`. -/

/-- A finite float64 value `(-1) ^ neg * mant * 2 ^ exp`. -/
structure Float64 where
  neg : Bool
  mant : Nat
  exp : Int
deriving DecidableEq, Repr

namespace Float64

/-- Number of binary digits of `n`, counted with at most `fuel` halvings. -/
def bitLenAux : Nat → Nat → Nat
  | 0, _ => 0
  | fuel + 1, n => if n = 0 then 0 else bitLenAux fuel (n / 2) + 1

/-- The base-2 logarithm of `n`, rounded down (`0` for `n = 0`). -/
def ilog2 (n : Nat) : Nat := bitLenAux n n - 1

/-- The positive rational `num / den` rounded to a 53-bit significand. -/
def roundPos (num den : Nat) : Float64 :=
  let e0 : Int := (ilog2 num : Int) - (ilog2 den : Int)
  -- `e` is the exponent with `2 ^ e ≤ num / den < 2 ^ (e + 1)`
  let below : Bool :=
    if 0 ≤ e0 then decide (num < den * 2 ^ e0.toNat) else decide (num * 2 ^ (-e0).toNat < den)
  let e : Int := if below then e0 - 1 else e0
  let q : Int := e - 52
  let a : Nat := if q ≤ 0 then num * 2 ^ (-q).toNat else num
  let b : Nat := if q ≤ 0 then den else den * 2 ^ q.toNat
  let m := a / b
  let r := a % b
  let m1 := if 2 * r < b then m else if b < 2 * r then m + 1 else if m % 2 = 0 then m else m + 1
  ⟨false, m1, q⟩

/-- The exact value `± m * 2 ^ e` rounded to float64. -/
def roundDyadic (neg : Bool) (m : Nat) (e : Int) : Float64 :=
  if m = 0 then ⟨false, 0, 0⟩
  else
    let r := if 0 ≤ e then roundPos (m * 2 ^ e.toNat) 1 else roundPos m (2 ^ (-e).toNat)
    { r with neg := neg }

/-- Conversion of a decimal constant `num / den` (both positive) to float64. -/
def ofRatio (num den : Nat) : Float64 := roundPos num den

/-- Conversion of an integer constant to float64. -/
def ofInt (n : Int) : Float64 := roundDyadic (decide (n < 0)) n.natAbs 0

/-- The signed significand of `x` at the exponent `e ≤ x.exp`. -/
def scaled (x : Float64) (e : Int) : Int :=
  let m : Int := (x.mant * 2 ^ (x.exp - e).toNat : Nat)
  if x.neg then -m else m

/-- Float64 subtraction: the exact difference, rounded. -/
def sub (x y : Float64) : Float64 :=
  let e := min x.exp y.exp
  let d := scaled x e - scaled y e
  roundDyadic (decide (d < 0)) d.natAbs e

/-- Float64 multiplication: the exact product, rounded. -/
def mul (x y : Float64) : Float64 :=
  roundDyadic (x.neg != y.neg) (x.mant * y.mant) (x.exp + y.exp)

/-- Conversion to `int64`: the fraction is discarded (truncation towards zero). -/
def toInt64 (x : Float64) : Int :=
  let m : Nat := if 0 ≤ x.exp then x.mant * 2 ^ x.exp.toNat else x.mant / 2 ^ (-x.exp).toNat
  if x.neg then -(m : Int) else m

end Float64

/-! ## Package time -/

/-- One nanosecond, the unit of `time.Duration` (an `int64`). -/
def Nanosecond : Int := 1

def Millisecond : Int := 1000 * 1000 * Nanosecond

def Minute : Int := 60 * 1000 * Millisecond

/-- Method `Milliseconds` of a duration: integer division, truncated towards zero. -/
def Milliseconds (d : Int) : Int := Int.tdiv d 1000000

/-! ## Service logic (main.go lines 203-336) -/

section Service

variable {σ : Type} (sys : OS σ)

/-- Statements `fmt.Print*`: one more chunk on standard output. -/
def printOut (w : World σ) (text : String) : World σ :=
  { w with stdout := w.stdout ++ [text] }

/-- Function `getEnv`. -/
def getEnv (os : σ) (key fallback : String) : String :=
  match sys.lookupEnv os key with
  | some value => value
  | none => fallback

/-- Function `getHostname`: the error of `os.Hostname` is discarded. -/
def getHostname (os : σ) : String := sys.hostname os

/-- Function `logInfo`. -/
def logInfo (w : World σ) (probeType : String) (status : Bool) : World σ :=
  let statusStr := if status then "Succeed" else "Failed"
  printOut w ("[Kubernetes] " ++ probeType ++ "Probe is " ++ statusStr ++
    " -> [System] status: " ++ fmtBool status ++ "\n")

/-- Function `loadConfig`. -/
def loadConfig (os : σ) : Config :=
  { Role := getEnv sys os "APPLICATION_ROLE" "ALL"
    Version := getEnv sys os "APPLICATION_VERSION" "Go-App v1.0.0"
    Profile := getEnv sys os "SPRING_PROFILES_ACTIVE" "default"
    PathPersistent := getEnv sys os "VOLUME_PATH_PERSISTENT_VOLUME_DATA" "./files/pv/"
    PathPod := getEnv sys os "VOLUME_PATH_POD_VOLUME_DATA" "./files/pod/"
    PostgresqlFilepath := getEnv sys os "POSTGRESQL_FILEPATH" "/etc/config/postgresql.yaml"
    DbDriver := "org.postgresql.Driver"
    DbUrl := "jdbc:postgresql://localhost:5432/db"
    DbUser := "user"
    DbPass := "pass" }

/-- The four overwriting statements of `datasourceSecretLoad` (lines 236-239). -/
def overrideDatasource (config : Config) (secret : SecretYaml) : Config :=
  let config := if secret.DriverClassName ≠ "" then { config with DbDriver := secret.DriverClassName } else config
  let config := if secret.Url ≠ "" then { config with DbUrl := secret.Url } else config
  let config := if secret.Username ≠ "" then { config with DbUser := secret.Username } else config
  let config := if secret.Password ≠ "" then { config with DbPass := secret.Password } else config
  config

/-- Function `datasourceSecretLoad`. -/
def datasourceSecretLoad (w : World σ) : World σ :=
  match sys.readFile w.os w.config.PostgresqlFilepath with
  | .error _ => w
  | .ok data =>
    match sys.yamlUnmarshal data with
    | .error err => printOut w ("Error parsing YAML: " ++ err ++ "\n")
    | .ok secret =>
      printOut { w with config := overrideDatasource w.config secret }
        "DataSource properties loaded from YAML file.\n"

/-- One 1 MiB block: `make([]byte, 1024*1024)`. -/
def newBlock : List Byte := List.replicate (1024 * 1024) 0

/-- The statements of `memoryLeak` before its loop. -/
def memoryLeakStart (w : World σ) : World σ :=
  let hostname := getHostname sys w.os
  printOut w (hostname ++ " : memoryLeak is starting\n")

/-- One iteration of the endless loop of `memoryLeak` (the sleep changes nothing). -/
def memoryLeakIter (w : World σ) : World σ :=
  let block := newBlock
  { w with memoryStore := w.memoryStore ++ [block] }

/-- The variable `load` of `cpuLoad`: the constant `0.8` as a float64. -/
def load : Float64 := Float64.ofRatio 8 10

/-- The variable `duration` of `cpuLoad`: `time.Duration(min) * time.Minute`. -/
def cpuLoadDuration (min : Int) : Int := wrapInt64 (wrapInt64 min * Minute)

/-- The bound of the busy loop, `int64(100*load)`, in milliseconds. -/
def busyThreshold : Int := Float64.toInt64 (Float64.mul (Float64.ofInt 100) load)

/-- The argument of `time.Sleep`:
`time.Duration(100*(1-load)) * time.Millisecond`, in nanoseconds. -/
def sleepInterval : Int :=
  wrapInt64 (Float64.toInt64 (Float64.mul (Float64.ofInt 100)
    (Float64.sub (Float64.ofInt 1) load)) * Millisecond)

/-- Function `cpuLoad`: one worker goroutine for each `i` with `0 ≤ i < thread`. -/
def cpuLoad (min thread : Int) (w : World σ) : World σ :=
  let hostname := getHostname sys w.os
  let duration := cpuLoadDuration min
  { w with goroutines := w.goroutines ++
      (List.range thread.toNat).map (fun i => Task.cpuLoadWorker hostname i min duration) }

/-- First statement of a worker of `cpuLoad`. -/
def cpuLoadWorkerStart (hostname : String) (id min : Int) (w : World σ) : World σ :=
  printOut w (hostname ++ " : cpuLoad thread-" ++ fmtD id ++ " starting (" ++ fmtD min ++ " min)\n")

/-- Condition of the outer loop of a worker: `time.Since(start) < duration`. -/
def workerContinues (elapsed duration : Int) : Bool := decide (elapsed < duration)

/-- Condition of the busy loop: `time.Since(loopStart).Milliseconds() < int64(100*load)`. -/
def busyWaitContinues (sinceLoopStart : Int) : Bool :=
  decide (Milliseconds sinceLoopStart < busyThreshold)

/-- Function `listFiles`. -/
def listFiles (os : σ) (path : String) : String :=
  match sys.readDir os path with
  | none => ""
  | some entries => entries.foldl (fun result e => e ++ " " ++ result) ""

def letters : String := "abcdefghijklmnopqrstuvwxyz"

/-- The loop of `createFile` drawing `k` random letters. -/
def randomLetters : Nat → σ → List Char × σ
  | 0, os => ([], os)
  | k + 1, os =>
    let r := sys.randIntn os letters.length
    let rest := randomLetters k r.2
    (letters.toList.getD r.1 'a' :: rest.1, rest.2)

/-- Function `createFile`. -/
def createFile (w : World σ) (path : String) : World σ × String :=
  let os1 := if sys.statNotExist w.os path then sys.mkdirAll w.os path else w.os
  let b := randomLetters sys 10 os1
  let randomStr := String.mk b.1
  let filename := sys.pathJoin path (randomStr ++ ".txt")
  let c := sys.create b.2 filename
  let w1 := { w with os := c.2 }
  let w2 := if c.1 then printOut w1 ("File created: " ++ filename ++ "\n")
    else printOut w1 "File already exists or error\n"
  (w2, listFiles sys w2.os path)

end Service

/-! ## The handlers registered by `main` (main.go lines 53-201) -/

section Handlers

variable {σ : Type} (sys : OS σ)

/-- What a handler works on: the program state and its response writer. -/
abbrev HandlerState (σ : Type) := World σ × ResponseWriter

def startupBody : String :=
  "<b>[App Initialization]</b><br>DB Connected : OK<br>Spring Initialization : OK<br>Jar is Running : OK"

def readinessBody : String :=
  "<b>[User Initialization]</b><br>Init Data : OK<br>Linkage System Check : OK<br>DB Data Validation : OK"

/-- Handler of `/hello`. -/
def helloHandler (s : HandlerState σ) : HandlerState σ :=
  (s.1, s.2.write "Welcome to Kubernetes Another Class")

/-- Handler of `/hostname`. -/
def hostnameHandler (s : HandlerState σ) : HandlerState σ :=
  (s.1, s.2.write (getHostname sys s.1.os))

/-- Handler of `/version`. -/
def versionHandler (s : HandlerState σ) : HandlerState σ :=
  (s.1, s.2.write ("[App Version] : " ++ s.1.config.Version))

/-- Handler of `/ready`. -/
def readyHandler (s : HandlerState σ) : HandlerState σ :=
  if s.1.isAppReady then (s.1, s.2.write "ok")
  else (s.1, s.2.writeHeader StatusInternalServerError)

/-- Handler of `/liveness`. -/
def livenessHandler (s : HandlerState σ) : HandlerState σ :=
  if s.1.isAppLive then (s.1, s.2.write "ok")
  else (s.1, s.2.writeHeader StatusInternalServerError)

/-- Handler of `/startup`. -/
def startupHandler (s : HandlerState σ) : HandlerState σ :=
  let w := logInfo s.1 "startup" s.1.isAppLive
  if w.isAppLive then (w, (s.2.setHeader "Content-Type" "text/html").write startupBody)
  else (w, s.2.writeHeader StatusInternalServerError)

/-- Handler of `/readiness`. -/
def readinessHandler (s : HandlerState σ) : HandlerState σ :=
  let w := logInfo s.1 "readiness" s.1.isAppReady
  if w.isAppReady then (w, (s.2.setHeader "Content-Type" "text/html").write readinessBody)
  else (w, s.2.writeHeader StatusInternalServerError)

/-- Handler of `/traffic-off`. -/
def trafficOffHandler (s : HandlerState σ) : HandlerState σ :=
  let w := { s.1 with isAppReady := false }
  let w := printOut w "[System] Traffic is forcibly stopped\n"
  (w, s.2.write "ok")

/-- Handler of `/traffic-on`. -/
def trafficOnHandler (s : HandlerState σ) : HandlerState σ :=
  let w := { s.1 with isAppReady := true }
  let w := printOut w "[System] Traffic is reconnected\n"
  (w, s.2.write "ok")

/-- Handler of `/server-error`. -/
def serverErrorHandler (s : HandlerState σ) : HandlerState σ :=
  let w := { s.1 with isAppLive := false }
  let w := printOut w "[System] An error occurred on the server\n"
  (w, s.2.write "ok")

/-- The three statements of the `/memory-leak` handler, in program order:
`isAppReady = false`, then `go memoryLeak()`, then the write. -/
def memoryLeakHandlerStmts : List (HandlerState σ → HandlerState σ) :=
  [ fun s => ({ s.1 with isAppReady := false }, s.2),
    fun s => ({ s.1 with goroutines := s.1.goroutines ++ [Task.memoryLeak] }, s.2),
    fun s => (s.1, s.2.write "Memory leak started...") ]

/-- The state after the first `k` statements of a statement list. -/
def runStmts (stmts : List (HandlerState σ → HandlerState σ)) (k : Nat)
    (s : HandlerState σ) : HandlerState σ :=
  (stmts.take k).foldl (fun acc stmt => stmt acc) s

/-- Handler of `/memory-leak`. -/
def memoryLeakHandler (s : HandlerState σ) : HandlerState σ :=
  memoryLeakHandlerStmts.foldl (fun acc stmt => stmt acc) s

/-- The pattern `v, _ := strconv.Atoi(str); if v == 0 { v = dflt }`. -/
def atoiOrDefault (str : GoString) (dflt : Int) : Int :=
  let v := (Atoi str).1
  if v = 0 then dflt else v

/-- Handler of `/cpu-load`. -/
def cpuLoadHandler (r : Request) (s : HandlerState σ) : HandlerState σ :=
  let minStr := r.query.get "min"
  let threadStr := r.query.get "thread"
  let min := atoiOrDefault minStr 2
  let thread := atoiOrDefault threadStr 10
  let w := { s.1 with goroutines := s.1.goroutines ++ [Task.cpuLoad min thread] }
  (w, s.2.write ("CPU Load started (" ++ fmtD min ++ " min, " ++ fmtD thread ++ " threads)"))

/-- Handler of `/info`. -/
def infoHandler (s : HandlerState σ) : HandlerState σ :=
  let config := s.1.config
  let html := "\n\t\t\t<b>[Version] :</b> " ++ config.Version ++
    "<br>\n\t\t\t<b>[Profile] :</b> " ++ config.Profile ++
    "<br>\n\t\t\t<b>[Role] :</b> " ++ config.Role ++
    " (option: ALL, GET, POST, PUT, DELETE)<br>\n\t\t\t<b>[Database]</b><br>\n\t\t\tdriver-class-name : " ++
    config.DbDriver ++ "<br>\n\t\t\turl : " ++ config.DbUrl ++
    "<br>\n\t\t\tusername : " ++ config.DbUser ++
    "<br>\n\t\t\tpassword : " ++ config.DbPass
  (s.1, (s.2.setHeader "Content-Type" "text/html").write html)

/-- Handler of `/properties`. -/
def propertiesHandler (s : HandlerState σ) : HandlerState σ :=
  let config := s.1.config
  let html := "\n\t\t\t<b>[Application profile] : </b> " ++ config.Profile ++
    "<br>\n\t\t\t<b>Volume path :</b> " ++ config.PathPersistent ++
    "<br><br>\n\t\t\t<b>application.yaml :</b> Common properties<br>---<br>\n\t\t\tdatasource:<br>&nbsp;&nbsp;driver-class-name:<br>&nbsp;&nbsp;url:<br>&nbsp;&nbsp;username:<br>&nbsp;&nbsp;password:<br>\n\t\t\tapplication:<br>&nbsp;&nbsp;role:&nbsp;\"ALL\"<br>&nbsp;&nbsp;version:&nbsp;\"Api Tester v1.0.0\"<br><br>\n\t\t\tpostgresql:<br>&nbsp;&nbsp;filepath:<br><br>\n\t\t\t<b>Current Config:</b><br>\n\t\t\tPV Path: " ++
    config.PathPersistent ++ "<br>Pod Path: " ++ config.PathPod
  (s.1, (s.2.setHeader "Content-Type" "text/html").write html)

/-- Handlers of `/create-file-pv` and `/create-file-pod`. -/
def createFileHandler (path : Config → String) (s : HandlerState σ) : HandlerState σ :=
  let r := createFile sys s.1 (path s.1.config)
  (r.1, s.2.write r.2)

/-- Handlers of `/list-file-pv` and `/list-file-pod`. -/
def listFilesHandler (path : Config → String) (s : HandlerState σ) : HandlerState σ :=
  (s.1, s.2.write (listFiles sys s.1.os (path s.1.config)))

/-- The handler the default mux runs for each registered pattern. -/
def handlerOf (r : Request) : HandlerState σ → HandlerState σ :=
  match r.endpoint with
  | .hello => helloHandler
  | .hostname => hostnameHandler sys
  | .version => versionHandler
  | .ready => readyHandler
  | .liveness => livenessHandler
  | .startup => startupHandler
  | .readiness => readinessHandler
  | .trafficOff => trafficOffHandler
  | .trafficOn => trafficOnHandler
  | .serverError => serverErrorHandler
  | .memoryLeak => memoryLeakHandler
  | .cpuLoad => cpuLoadHandler r
  | .info => infoHandler
  | .properties => propertiesHandler
  | .createFilePv => createFileHandler sys Config.PathPersistent
  | .listFilePv => listFilesHandler sys Config.PathPersistent
  | .createFilePod => createFileHandler sys Config.PathPod
  | .listFilePod => listFilesHandler sys Config.PathPod

/-- Serving one request: the handler runs on a fresh writer, then the response is sent. -/
def serve (r : Request) (w : World σ) : World σ × Response :=
  let s := handlerOf sys r (w, ResponseWriter.new)
  (s.1, s.2.finish)

/-- The program state after a sequence of requests served one after the other. -/
def serveAll (rs : List Request) (w : World σ) : World σ :=
  rs.foldl (fun acc r => (serve sys r acc).1) w

/-- The package-level variables as initialised at lines 16-21. -/
def World.initial (os : σ) : World σ :=
  { isAppReady := false
    isAppLive := false
    memoryStore := []
    config := ⟨"", "", "", "", "", "", "", "", "", ""⟩
    stdout := []
    goroutines := []
    os := os }

/-- Function `init`. -/
def init (w : World σ) : World σ :=
  datasourceSecretLoad sys { w with config := loadConfig sys w.os }

/-- Startup completion: the statements of `main` after the registrations (lines 193-196). -/
def startupComplete (w : World σ) : World σ :=
  let w := printOut w "Starting Go Server on port 8080...\n"
  let w := { w with isAppLive := true }
  { w with isAppReady := true }

/-- A step taken by a started goroutine. -/
inductive GeneratorStep where
  | memoryLeakStart
  | memoryLeakIter
  | cpuLoad (min thread : Int)
  | cpuLoadWorkerStart (hostname : String) (id min : Int)

/-- The effect of a goroutine step on the program state. -/
def GeneratorStep.run (g : GeneratorStep) (w : World σ) : World σ :=
  match g with
  | .memoryLeakStart => WebGo.memoryLeakStart sys w
  | .memoryLeakIter => WebGo.memoryLeakIter w
  | .cpuLoad min thread => WebGo.cpuLoad sys min thread w
  | .cpuLoadWorkerStart hostname id min => WebGo.cpuLoadWorkerStart hostname id min w

/-- What can happen once the server listens: a request is served, or a started
goroutine takes a step. -/
inductive Event where
  | request (r : Request)
  | generator (g : GeneratorStep)

/-- The effect of an event on the program state. -/
def Event.run (e : Event) (w : World σ) : World σ :=
  match e with
  | .request r => (serve sys r w).1
  | .generator g => g.run sys w

/-- The program state after a sequence of events. -/
def runEvents (es : List Event) (w : World σ) : World σ :=
  es.foldl (fun acc e => e.run sys acc) w

end Handlers

/-! ## The `/cpu-load` parameters as the specification words them -/

/-- An ASCII decimal digit. -/
def isDigit (b : Byte) : Bool := decide (48 ≤ b.val ∧ b.val ≤ 57)

/-- The number denoted by a run of decimal digits read after the value `n`. -/
def digitsFrom (n : Nat) (ds : List Byte) : Nat :=
  ds.foldl (fun acc b => acc * 10 + (b.val - 48)) n

/-- The number denoted by a run of decimal digits. -/
def digitsValue (ds : List Byte) : Nat := digitsFrom 0 ds

/-- Whether the string starts with a minus sign. -/
def isNegative (s : GoString) : Bool :=
  match s with
  | [] => false
  | c :: _ => decide (c.val = 45)

/-- The string without its optional leading `+` or `-`. -/
def unsignedPart (s : GoString) : GoString :=
  match s with
  | [] => []
  | c :: rest => if c.val = 45 ∨ c.val = 43 then rest else s

/-- The integer value of a numeric string (an optional sign, then one or more decimal
digits); `none` for a string that is not numeric. -/
def numericValue (s : GoString) : Option Int :=
  if unsignedPart s ≠ [] ∧ (unsignedPart s).all isDigit = true then
    some (if isNegative s then -(digitsValue (unsignedPart s) : Int)
      else (digitsValue (unsignedPart s) : Int))
  else none

/-- The parameter the specification describes: the default when the key is
unspecified, non-numeric or zero, and otherwise the integer value of the string. -/
def specParam (q : Query) (key : String) (dflt : Int) : Int :=
  match q.find? (fun kv => kv.1 == key) with
  | none => dflt
  | some kv =>
    match numericValue kv.2 with
    | none => dflt
    | some v => if v = 0 then dflt else v

/-- The string does not overflow: if it is numeric its value is one a 64-bit `int` can
hold, and if it is not, the digits it starts with (after its optional sign) denote a
number below 2^64. -/
def fitsInt (s : GoString) : Bool :=
  if (unsignedPart s).all isDigit = true then
    if isNegative s then decide (digitsValue (unsignedPart s) ≤ 2 ^ 63)
    else decide (digitsValue (unsignedPart s) < 2 ^ 63)
  else decide (digitsValue ((unsignedPart s).takeWhile isDigit) < 2 ^ 64)

/-! ## A concrete host, used to evaluate the handlers on concrete inputs -/

/-- A host without environment variables, with no readable file or directory. -/
def bareHost : OS Unit :=
  { hostname := fun _ => "web-go-0"
    lookupEnv := fun _ _ => none
    readFile := fun _ _ => .error "open: no such file or directory"
    yamlUnmarshal := fun _ => .error "yaml: unmarshal errors"
    statNotExist := fun _ _ => true
    mkdirAll := fun os _ => os
    randIntn := fun os _ => (0, os)
    pathJoin := fun dir name => dir ++ name
    create := fun os _ => (false, os)
    readDir := fun _ _ => none }

/-- The program state of `bareHost` once `init` and the startup statements have run. -/
def bareWorld : World Unit := startupComplete (init bareHost (World.initial ()))

/-! ## Frame lemmas shared by the theorems -/

section Lemmas

variable {σ : Type} (sys : OS σ)

/-- Function `createFile` touches standard output and the file system only. -/
theorem createFile_frame (w : World σ) (path : String) :
    (createFile sys w path).1.isAppReady = w.isAppReady ∧
    (createFile sys w path).1.isAppLive = w.isAppLive ∧
    (createFile sys w path).1.memoryStore = w.memoryStore ∧
    (createFile sys w path).1.config = w.config ∧
    (createFile sys w path).1.goroutines = w.goroutines := by
  simp only [createFile, printOut]
  split_ifs <;> exact ⟨rfl, rfl, rfl, rfl, rfl⟩

/-- The `ready` flag after one request, as a function of the endpoint. -/
theorem serve_isAppReady (r : Request) (w : World σ) :
    (serve sys r w).1.isAppReady =
      (match r.endpoint with
       | .trafficOff => false
       | .trafficOn => true
       | .memoryLeak => false
       | _ => w.isAppReady) := by
  obtain ⟨e, q⟩ := r
  cases e <;> first
    | rfl
    | exact (createFile_frame sys w _).1
    | exact (createFile_frame sys w _).2.1
    | (simp only [serve, handlerOf, readyHandler, livenessHandler, startupHandler,
        readinessHandler, logInfo, printOut]
       split <;> rfl)

/-- The `live` flag after one request, as a function of the endpoint. -/
theorem serve_isAppLive (r : Request) (w : World σ) :
    (serve sys r w).1.isAppLive =
      (match r.endpoint with
       | .serverError => false
       | _ => w.isAppLive) := by
  obtain ⟨e, q⟩ := r
  cases e <;> first
    | rfl
    | exact (createFile_frame sys w _).1
    | exact (createFile_frame sys w _).2.1
    | (simp only [serve, handlerOf, readyHandler, livenessHandler, startupHandler,
        readinessHandler, logInfo, printOut]
       split <;> rfl)

/-- No goroutine step writes a health flag. -/
theorem generator_flags (g : GeneratorStep) (w : World σ) :
    (g.run sys w).isAppReady = w.isAppReady ∧ (g.run sys w).isAppLive = w.isAppLive := by
  cases g <;> exact ⟨rfl, rfl⟩

/-- Serving a list of requests, unfolded at its head. -/
theorem serveAll_cons (r : Request) (rs : List Request) (w : World σ) :
    serveAll sys (r :: rs) w = serveAll sys rs (serve sys r w).1 := rfl

/-- Serving a list of requests, unfolded at its end. -/
theorem serveAll_append_singleton (rs : List Request) (r : Request) (w : World σ) :
    serveAll sys (rs ++ [r]) w = (serve sys r (serveAll sys rs w)).1 := by
  simp [serveAll, List.foldl_append]

end Lemmas

/-! ## Probes, traffic control and fault injection -/

section Health

variable {σ : Type} (sys : OS σ)

/-- C1: each probe endpoint succeeds exactly when its own flag is true and never
changes the state. `/ready` and `/readiness` answer 200 (body "ok", resp. the fixed
HTML body) when `ready` is true and 500 with an empty body otherwise; `/liveness` and
`/startup` do the same keyed on `live`. The response is a function of the probe's own
flag alone, and the flags, the retained memory, the configuration and the started
goroutines are as before the request. -/
theorem probe_reports_own_flag (w : World σ) (q : Query) :
    (serve sys ⟨.ready, q⟩ w).2 =
      (if w.isAppReady then ⟨200, [], "ok"⟩ else ⟨500, [], ""⟩) ∧
    (serve sys ⟨.readiness, q⟩ w).2 =
      (if w.isAppReady then ⟨200, [("Content-Type", "text/html")],
        "<b>[User Initialization]</b><br>Init Data : OK<br>Linkage System Check : OK<br>DB Data Validation : OK"⟩
       else ⟨500, [], ""⟩) ∧
    (serve sys ⟨.liveness, q⟩ w).2 =
      (if w.isAppLive then ⟨200, [], "ok"⟩ else ⟨500, [], ""⟩) ∧
    (serve sys ⟨.startup, q⟩ w).2 =
      (if w.isAppLive then ⟨200, [("Content-Type", "text/html")],
        "<b>[App Initialization]</b><br>DB Connected : OK<br>Spring Initialization : OK<br>Jar is Running : OK"⟩
       else ⟨500, [], ""⟩) ∧
    (∀ e ∈ [Endpoint.ready, Endpoint.readiness, Endpoint.liveness, Endpoint.startup],
      (serve sys ⟨e, q⟩ w).1.isAppReady = w.isAppReady ∧
      (serve sys ⟨e, q⟩ w).1.isAppLive = w.isAppLive ∧
      (serve sys ⟨e, q⟩ w).1.memoryStore = w.memoryStore ∧
      (serve sys ⟨e, q⟩ w).1.config = w.config ∧
      (serve sys ⟨e, q⟩ w).1.goroutines = w.goroutines) := by
  refine ⟨?_, ?_, ?_, ?_, ?_⟩
  · cases h : w.isAppReady <;> simp [serve, handlerOf, readyHandler, h] <;> rfl
  · cases h : w.isAppReady <;> simp [serve, handlerOf, readinessHandler, logInfo, printOut, h] <;> rfl
  · cases h : w.isAppLive <;> simp [serve, handlerOf, livenessHandler, h] <;> rfl
  · cases h : w.isAppLive <;> simp [serve, handlerOf, startupHandler, logInfo, printOut, h] <;> rfl
  · intro e he
    simp only [List.mem_cons, List.mem_singleton, List.not_mem_nil, or_false] at he
    rcases he with rfl | rfl | rfl | rfl
    · cases h : w.isAppReady <;> simp [serve, handlerOf, readyHandler, h]
    · cases h : w.isAppReady <;> simp [serve, handlerOf, readinessHandler, logInfo, printOut, h]
    · cases h : w.isAppLive <;> simp [serve, handlerOf, livenessHandler, h]
    · cases h : w.isAppLive <;> simp [serve, handlerOf, startupHandler, logInfo, printOut, h]

/-- C2: after a non-empty sequence of `/traffic-off` and `/traffic-on` requests the
`ready` flag is the value written by the last request alone (true exactly when the
last one is `/traffic-on`), whatever the starting state and the earlier requests; each
such request answers 200 with body "ok". -/
theorem traffic_last_write_wins (w : World σ) (rs : List Request) (hne : rs ≠ [])
    (hrs : ∀ r ∈ rs, r.endpoint = .trafficOff ∨ r.endpoint = .trafficOn) :
    (serveAll sys rs w).isAppReady = decide ((rs.getLast hne).endpoint = .trafficOn) ∧
    (∀ r ∈ rs, ∀ w' : World σ, (serve sys r w').2 = ⟨200, [], "ok"⟩) := by
  constructor
  · obtain ⟨init, last, rfl⟩ : ∃ init last, rs = init ++ [last] :=
      ⟨rs.dropLast, rs.getLast hne, (List.dropLast_append_getLast hne).symm⟩
    rw [serveAll_append_singleton, serve_isAppReady, List.getLast_append_singleton]
    rcases hrs last (by simp) with h | h <;> simp [h]
  · intro r hr w'
    obtain ⟨e, q⟩ := r
    rcases hrs _ hr with h | h <;> simp only at h <;> subst h <;> rfl

/-- The witness of C2: `/traffic-on` then `/traffic-off` leaves `ready` false. -/
theorem traffic_last_write_wins_witness :
    (serveAll bareHost [⟨.trafficOn, []⟩, ⟨.trafficOff, []⟩] bareWorld).isAppReady = false ∧
    (∀ r ∈ [(⟨.trafficOn, []⟩ : Request), ⟨.trafficOff, []⟩], ∀ w' : World Unit,
      (serve bareHost r w').2 = ⟨200, [], "ok"⟩) :=
  traffic_last_write_wins bareHost bareWorld [⟨.trafficOn, []⟩, ⟨.trafficOff, []⟩]
    (by simp) (by simp)

/-- Request sequences keep `live` false once it is false. -/
theorem serveAll_live_false (rs : List Request) (w : World σ) (h : w.isAppLive = false) :
    (serveAll sys rs w).isAppLive = false := by
  induction rs generalizing w with
  | nil => exact h
  | cons r rs ih =>
    rw [serveAll_cons]
    apply ih
    rw [serve_isAppLive]
    split <;> simp [h]

/-- Sequences of requests and goroutine steps keep `live` false once it is false. -/
theorem runEvents_live_false (es : List Event) (w : World σ) (h : w.isAppLive = false) :
    (runEvents sys es w).isAppLive = false := by
  induction es generalizing w with
  | nil => exact h
  | cons e es ih =>
    have hstep : (e.run sys w).isAppLive = false := by
      cases e with
      | request r =>
        show (serve sys r w).1.isAppLive = false
        rw [serve_isAppLive]
        split <;> simp [h]
      | generator g => exact (generator_flags sys g w).2.trans h
    exact ih _ hstep

/-- C3: `/server-error` is irreversible. After a `/server-error` request `live` is
false, and after any finite sequence of further requests to registered endpoints (with
any query) it is still false, also when steps of the started goroutines are
interleaved with the requests. -/
theorem server_error_irreversible (w : World σ) (q : Query) (rs : List Request)
    (es : List Event) :
    (serve sys ⟨.serverError, q⟩ w).1.isAppLive = false ∧
    (serveAll sys rs (serve sys ⟨.serverError, q⟩ w).1).isAppLive = false ∧
    (runEvents sys es (serve sys ⟨.serverError, q⟩ w).1).isAppLive = false :=
  ⟨rfl, serveAll_live_false sys rs _ rfl, runEvents_live_false sys es _ rfl⟩

/-- C4: the `/memory-leak` handler first sets `ready` to false and only then starts
the accumulator. After its first statement `ready` is false while the retained memory,
`live` and the started goroutines are as before the request; the second statement
starts `memoryLeak`, still without any block appended (only an iteration of
`memoryLeak` appends one); the response is 200 with "Memory leak started...". -/
theorem memory_leak_drains_first (w : World σ) (q : Query) :
    (runStmts memoryLeakHandlerStmts 1 (w, ResponseWriter.new)).1.isAppReady = false ∧
    (runStmts memoryLeakHandlerStmts 1 (w, ResponseWriter.new)).1.memoryStore = w.memoryStore ∧
    (runStmts memoryLeakHandlerStmts 1 (w, ResponseWriter.new)).1.isAppLive = w.isAppLive ∧
    (runStmts memoryLeakHandlerStmts 1 (w, ResponseWriter.new)).1.goroutines = w.goroutines ∧
    (runStmts memoryLeakHandlerStmts 2 (w, ResponseWriter.new)).1.goroutines =
      w.goroutines ++ [Task.memoryLeak] ∧
    (runStmts memoryLeakHandlerStmts 2 (w, ResponseWriter.new)).1.memoryStore = w.memoryStore ∧
    runStmts memoryLeakHandlerStmts 3 (w, ResponseWriter.new) =
      handlerOf sys ⟨.memoryLeak, q⟩ (w, ResponseWriter.new) ∧
    (serve sys ⟨.memoryLeak, q⟩ w).1.isAppReady = false ∧
    (serve sys ⟨.memoryLeak, q⟩ w).1.memoryStore = w.memoryStore ∧
    (serve sys ⟨.memoryLeak, q⟩ w).1.isAppLive = w.isAppLive ∧
    (serve sys ⟨.memoryLeak, q⟩ w).2 = ⟨200, [], "Memory leak started..."⟩ ∧
    (memoryLeakIter w).memoryStore = w.memoryStore ++ [newBlock] :=
  ⟨rfl, rfl, rfl, rfl, rfl, rfl, rfl, rfl, rfl, rfl, rfl, rfl⟩

/-- C6: each health flag is changed only by its named control actions. After a request
`ready` is false for `/traffic-off` and `/memory-leak`, true for `/traffic-on`, and
unchanged for every other endpoint; `live` is false for `/server-error` and unchanged
for every other endpoint; the steps of the memory accumulator and of the CPU burster
leave both flags unchanged. -/
theorem flags_changed_only_by_named_actions (w : World σ) (r : Request) (g : GeneratorStep) :
    (serve sys r w).1.isAppReady =
      (match r.endpoint with
       | .trafficOff => false
       | .trafficOn => true
       | .memoryLeak => false
       | _ => w.isAppReady) ∧
    (serve sys r w).1.isAppLive =
      (match r.endpoint with
       | .serverError => false
       | _ => w.isAppLive) ∧
    (g.run sys w).isAppReady = w.isAppReady ∧
    (g.run sys w).isAppLive = w.isAppLive :=
  ⟨serve_isAppReady sys r w, serve_isAppLive sys r w, generator_flags sys g w⟩

/-- C7: the startup and drain scenario. As constructed (and still after `init`)
`/ready` answers 500; after startup completion it answers 200 "ok"; after a following
`/traffic-off` it answers 500; after a following `/traffic-on` it answers 200 "ok". -/
theorem startup_and_drain_scenario (os : σ) (q : Query) :
    (World.initial os).isAppReady = false ∧ (World.initial os).isAppLive = false ∧
    (serve sys ⟨.ready, q⟩ (World.initial os)).2.status = 500 ∧
    (serve sys ⟨.ready, q⟩ (init sys (World.initial os))).2.status = 500 ∧
    (startupComplete (init sys (World.initial os))).isAppReady = true ∧
    (startupComplete (init sys (World.initial os))).isAppLive = true ∧
    (serve sys ⟨.ready, q⟩ (startupComplete (init sys (World.initial os)))).2 =
      ⟨200, [], "ok"⟩ ∧
    (serve sys ⟨.ready, q⟩
      (serve sys ⟨.trafficOff, q⟩ (startupComplete (init sys (World.initial os)))).1).2.status
      = 500 ∧
    (serve sys ⟨.ready, q⟩
      (serve sys ⟨.trafficOn, q⟩
        (serve sys ⟨.trafficOff, q⟩ (startupComplete (init sys (World.initial os)))).1).1).2 =
      ⟨200, [], "ok"⟩ := by
  have hinit : (init sys (World.initial os)).isAppReady = false := by
    simp only [init, datasourceSecretLoad, printOut]
    split
    · rfl
    · split <;> rfl
  refine ⟨rfl, rfl, rfl, ?_, rfl, rfl, rfl, rfl, rfl⟩
  simp [serve, handlerOf, readyHandler, hinit]
  rfl

end Health

/-! ## Configuration: the secret override -/

section Configuration

variable {σ : Type} (sys : OS σ)

/-- C8: the secret override. When the descriptor file cannot be read or fails to
parse, the configuration is unchanged. When it parses, each of `DbDriver`, `DbUrl`,
`DbUser`, `DbPass` becomes the descriptor's value if that value is non-empty and keeps
its previous value if it is empty, and `Role`, `Version`, `Profile`, `PathPersistent`,
`PathPod`, `PostgresqlFilepath` are unchanged. -/
theorem secret_override (w : World σ) :
    match sys.readFile w.os w.config.PostgresqlFilepath with
    | .error _ => (datasourceSecretLoad sys w).config = w.config
    | .ok data =>
      match sys.yamlUnmarshal data with
      | .error _ => (datasourceSecretLoad sys w).config = w.config
      | .ok secret =>
        (datasourceSecretLoad sys w).config.DbDriver =
          (if secret.DriverClassName = "" then w.config.DbDriver else secret.DriverClassName) ∧
        (datasourceSecretLoad sys w).config.DbUrl =
          (if secret.Url = "" then w.config.DbUrl else secret.Url) ∧
        (datasourceSecretLoad sys w).config.DbUser =
          (if secret.Username = "" then w.config.DbUser else secret.Username) ∧
        (datasourceSecretLoad sys w).config.DbPass =
          (if secret.Password = "" then w.config.DbPass else secret.Password) ∧
        (datasourceSecretLoad sys w).config.Role = w.config.Role ∧
        (datasourceSecretLoad sys w).config.Version = w.config.Version ∧
        (datasourceSecretLoad sys w).config.Profile = w.config.Profile ∧
        (datasourceSecretLoad sys w).config.PathPersistent = w.config.PathPersistent ∧
        (datasourceSecretLoad sys w).config.PathPod = w.config.PathPod ∧
        (datasourceSecretLoad sys w).config.PostgresqlFilepath = w.config.PostgresqlFilepath := by
  split
  · next e hread => simp only [datasourceSecretLoad, hread]
  · next data hread =>
    split
    · next e hparse => simp only [datasourceSecretLoad, hread, hparse, printOut]
    · next secret hparse =>
      simp only [datasourceSecretLoad, hread, hparse, printOut, overrideDatasource]
      refine ⟨?_, ?_, ?_, ?_, ?_, ?_, ?_, ?_, ?_, ?_⟩ <;>
        by_cases h1 : secret.DriverClassName = "" <;>
        by_cases h2 : secret.Url = "" <;>
        by_cases h3 : secret.Username = "" <;>
        by_cases h4 : secret.Password = "" <;>
        simp [h1, h2, h3, h4]

end Configuration

/-! ## The CPU burster -/

set_option maxRecDepth 100000 in
/-- C9: with `load := 0.8` the busy-wait bound `int64(100*load)` is 80 ms, but the
sleep interval `time.Duration(100*(1-load)) * time.Millisecond` is 19 ms, not 20 ms:
the float64 product `100*(1-0.8)` is `5629499534213119 * 2^-48`, just below 20, and
the conversion discards the fraction. -/
theorem cpu_load_cycle_is_80_busy_19_idle :
    load = ⟨false, 7205759403792794, -53⟩ ∧
    Float64.sub (Float64.ofInt 1) load = ⟨false, 7205759403792792, -55⟩ ∧
    Float64.mul (Float64.ofInt 100) (Float64.sub (Float64.ofInt 1) load) =
      ⟨false, 5629499534213119, -48⟩ ∧
    busyThreshold = 80 ∧
    sleepInterval = 19 * Millisecond ∧
    sleepInterval ≠ 20 * Millisecond := by
  decide

/-- The wrap to `int64` is the identity on the `int64` range. -/
theorem wrapInt64_of_range (x : Int) (h1 : -2 ^ 63 ≤ x) (h2 : x < 2 ^ 63) :
    wrapInt64 x = x := by
  unfold wrapInt64
  omega

/-- C10 fails at 153722868 minutes, a value `/cpu-load` accepts: the product with
`time.Minute` wraps to a negative duration, which differs from
153722868 × 60 × 10^9 ns, and the worker loop stops at elapsed time 0. -/
theorem cpu_load_duration_overflows :
    atoiOrDefault (ascii "153722868") 2 = 153722868 ∧
    cpuLoadDuration 153722868 = -9223371993709551616 ∧
    cpuLoadDuration 153722868 ≠ 153722868 * 60 * 10 ^ 9 ∧
    workerContinues 0 (cpuLoadDuration 153722868) = false ∧
    ¬ (∀ min : Int, 0 < min →
        cpuLoadDuration min = min * 60 * 10 ^ 9 ∧
        ∀ elapsed : Int, workerContinues elapsed (cpuLoadDuration min) = true ↔
          elapsed < min * 60 * 10 ^ 9) := by
  refine ⟨by decide, by decide, by decide, by decide, ?_⟩
  intro h
  exact absurd (h 153722868 (by decide)).1 (by decide)

/-- C10, amended: for 0 < min ≤ 153722867 the duration computed by `cpuLoad` is
min × 60 × 10^9 ns, and a worker keeps cycling exactly while its elapsed time is less
than that. -/
theorem cpu_load_duration_exact (min : Int) (hpos : 0 < min) (hmax : min ≤ 153722867) :
    cpuLoadDuration min = min * 60 * 10 ^ 9 ∧
    ∀ elapsed : Int, workerContinues elapsed (cpuLoadDuration min) = true ↔
      elapsed < min * 60 * 10 ^ 9 := by
  have hd : cpuLoadDuration min = min * 60 * 10 ^ 9 := by
    unfold cpuLoadDuration Minute Millisecond Nanosecond
    rw [wrapInt64_of_range min (by omega) (by omega), wrapInt64_of_range _ (by omega) (by omega)]
    ring
  refine ⟨hd, fun elapsed => ?_⟩
  rw [hd]
  simp [workerContinues]

/-- The witness of C10 amended: one minute is 60 × 10^9 ns. -/
theorem cpu_load_duration_exact_witness :
    cpuLoadDuration 1 = 1 * 60 * 10 ^ 9 ∧
    ∀ elapsed : Int, workerContinues elapsed (cpuLoadDuration 1) = true ↔
      elapsed < 1 * 60 * 10 ^ 9 :=
  cpu_load_duration_exact 1 (by decide) (by decide)

/-! ## `strconv.Atoi` against the numeric value of a string -/

/-- The byte test of the fast path of `Atoi` accepts exactly the decimal digits. -/
theorem fast_digit_test (c : Byte) :
    ((c.val + 256 - 48) % 256 > 9 ↔ isDigit c = false) ∧
    (isDigit c = true → (c.val + 256 - 48) % 256 = c.val - 48) := by
  have hc := c.isLt
  simp only [isDigit, decide_eq_false_iff_not, decide_eq_true_eq]
  omega

/-- Reading more digits never decreases the value. -/
theorem le_digitsFrom (ds : List Byte) (n : Nat) : n ≤ digitsFrom n ds := by
  induction ds generalizing n with
  | nil => exact Nat.le_refl n
  | cons c cs ih =>
    have h := ih (n * 10 + (c.val - 48))
    simp only [digitsFrom, List.foldl_cons] at h ⊢
    omega

/-- The fast path of `Atoi` reads a run of digits and rejects anything else. -/
theorem atoiFastLoop_eq (cs : List Byte) (n : Nat) :
    atoiFastLoop cs (n : Int) =
      if cs.all isDigit = true then some ((digitsFrom n cs : Nat) : Int) else none := by
  induction cs generalizing n with
  | nil => simp [atoiFastLoop, digitsFrom]
  | cons c cs ih =>
    obtain ⟨h1, h2⟩ := fast_digit_test c
    cases hd : isDigit c with
    | false =>
      have hgt : (c.val + 256 - 48) % 256 > 9 := h1.mpr hd
      simp only [atoiFastLoop, hgt, if_true, List.all_cons, hd, Bool.false_and]
      rfl
    | true =>
      have hlt : ¬ (c.val + 256 - 48) % 256 > 9 := fun h => by
        have := h1.mp h
        simp [hd] at this
      have hv := h2 hd
      have hstep : (n : Int) * 10 + (((c.val + 256 - 48) % 256 : Nat) : Int) =
          ((n * 10 + (c.val - 48) : Nat) : Int) := by
        rw [hv]
        push_cast
        rfl
      simp only [atoiFastLoop, hlt, if_false, List.all_cons, hd, Bool.true_and]
      rw [hstep, ih]
      rfl

/-- Reading one digit. -/
theorem digitsFrom_cons (n : Nat) (c : Byte) (cs : List Byte) :
    digitsFrom n (c :: cs) = digitsFrom (n * 10 + (c.val - 48)) cs := rfl

/-- The loop of `ParseUint`: a range error as soon as the leading digits reach 2^64,
otherwise the value of an all-digit string, otherwise a syntax error. -/
theorem parseUintLoop_eq (cutoff : Nat) (hcut : cutoff = 1844674407370955162)
    (cs : List Byte) (n : Nat) (hn : n < 2 ^ 64) :
    parseUintLoop cutoff (2 ^ 64 - 1) cs n =
      if 2 ^ 64 ≤ digitsFrom n (cs.takeWhile isDigit) then (2 ^ 64 - 1, some .errRange)
      else if cs.all isDigit = true then (digitsFrom n cs, none)
      else (0, some .errSyntax) := by
  subst hcut
  induction cs generalizing n with
  | nil =>
    have h : ¬ 2 ^ 64 ≤ digitsFrom n (List.takeWhile isDigit []) := by
      simp only [List.takeWhile_nil, digitsFrom, List.foldl_nil]
      omega
    rw [if_neg h]
    simp [parseUintLoop, digitsFrom]
  | cons c cs ih =>
    rw [parseUintLoop]
    cases hd : isDigit c with
    | false =>
      have hnd : ¬ (48 ≤ c.val ∧ c.val ≤ 57) := by simpa [isDigit] using hd
      have h : ¬ 2 ^ 64 ≤ digitsFrom n [] := by
        simp only [digitsFrom, List.foldl_nil]
        omega
      simp only [hnd, if_false, List.takeWhile_cons, hd, List.all_cons, Bool.false_and,
        Bool.false_eq_true]
      rw [if_neg h]
      by_cases hl : 97 ≤ lower c ∧ lower c ≤ 122
      · have h10 : lower c - 97 + 10 ≥ 10 := by omega
        simp [hl, h10]
      · simp [hl]
    | true =>
      have hdig : 48 ≤ c.val ∧ c.val ≤ 57 := by simpa [isDigit] using hd
      have hd10 : ¬ c.val - 48 ≥ 10 := by omega
      simp only [hdig, and_self, if_true, hd10, if_false, List.takeWhile_cons, hd,
        List.all_cons, Bool.true_and, digitsFrom_cons]
      have hmono := le_digitsFrom (cs.takeWhile isDigit) (n * 10 + (c.val - 48))
      by_cases hc : n ≥ 1844674407370955162
      · have : 2 ^ 64 ≤ digitsFrom (n * 10 + (c.val - 48)) (cs.takeWhile isDigit) := by omega
        rw [if_pos this]
        simp [hc]
      · by_cases hov : 2 ^ 64 ≤ n * 10 + (c.val - 48)
        · have h1 : (n * 10 % 2 ^ 64 + (c.val - 48)) % 2 ^ 64 < n * 10 % 2 ^ 64 := by omega
          have : 2 ^ 64 ≤ digitsFrom (n * 10 + (c.val - 48)) (cs.takeWhile isDigit) := by omega
          simp only [hc, if_false, h1, true_or, if_true, this]
        · have h1 : (n * 10 % 2 ^ 64 + (c.val - 48)) % 2 ^ 64 = n * 10 + (c.val - 48) := by omega
          have h2 : ¬ (n * 10 + (c.val - 48) < n * 10 % 2 ^ 64 ∨
              n * 10 + (c.val - 48) > 2 ^ 64 - 1) := by omega
          simp only [hc, if_false, h1, h2]
          exact ih _ (by omega)

/-- A string of digits is its own leading run of digits. -/
theorem takeWhile_isDigit_of_all (cs : List Byte) (h : cs.all isDigit = true) :
    cs.takeWhile isDigit = cs := by
  rw [List.takeWhile_eq_self_iff]
  intro x hx
  exact (List.all_eq_true.mp h) x hx

/-- Function `ParseUint` on a string whose leading digits stay below 2^64. -/
theorem ParseUint_eq (s : GoString) (h : digitsValue (s.takeWhile isDigit) < 2 ^ 64) :
    ParseUint s =
      if s ≠ [] ∧ s.all isDigit = true then (digitsValue s, none)
      else (0, some .errSyntax) := by
  unfold ParseUint
  by_cases hs : s = []
  · simp [hs]
  · have hlt : ¬ 2 ^ 64 ≤ digitsFrom 0 (s.takeWhile isDigit) := by
      unfold digitsValue at h
      omega
    rw [if_neg hs, parseUintLoop_eq _ (by decide) s 0 (by decide), if_neg hlt]
    by_cases ha : s.all isDigit = true
    · rw [if_pos ha, if_pos ⟨hs, ha⟩]
      rfl
    · rw [if_neg ha, if_neg (fun h => ha h.2)]

/-- The sign handling of `ParseInt` takes the same part of the string as `unsignedPart`. -/
theorem parseInt_strip (c : Byte) (rest : List Byte) :
    (if c.val = 43 then rest else if c.val = 45 then rest else c :: rest) =
      unsignedPart (c :: rest) := by
  unfold unsignedPart
  by_cases h1 : c.val = 43 <;> by_cases h2 : c.val = 45 <;> simp [h1, h2]

/-- Function `ParseInt` returns the numeric value of a string that fits an `int`, and 0
for a string that is not numeric. -/
theorem ParseInt_value (s : GoString) (hfit : fitsInt s = true) :
    (ParseInt s).1 = (numericValue s).getD 0 := by
  cases s with
  | nil => rfl
  | cons c rest =>
    unfold ParseInt
    simp only [parseInt_strip]
    generalize hu : unsignedPart (c :: rest) = u at *
    have hneg : isNegative (c :: rest) = decide (c.val = 45) := rfl
    unfold fitsInt at hfit
    rw [hu, hneg] at hfit
    have hV : digitsValue (u.takeWhile isDigit) < 2 ^ 64 := by
      by_cases ha : u.all isDigit = true
      · rw [if_pos ha] at hfit
        rw [takeWhile_isDigit_of_all u ha]
        by_cases h45 : c.val = 45
        · simp only [h45, decide_True, if_true, decide_eq_true_eq] at hfit
          omega
        · simp only [h45, decide_False, Bool.false_eq_true, if_false, decide_eq_true_eq] at hfit
          omega
      · rw [if_neg ha] at hfit
        exact of_decide_eq_true hfit
    rw [ParseUint_eq u hV]
    unfold numericValue
    rw [hu, hneg]
    by_cases hnum : u ≠ [] ∧ u.all isDigit = true
    · rw [if_pos hnum, if_pos hnum]
      rw [if_pos hnum.2] at hfit
      by_cases h45 : c.val = 45
      · simp only [h45, decide_True, if_true, decide_eq_true_eq] at hfit
        have hw : wrapInt64 (-(wrapInt64 ((digitsValue u : Nat) : Int))) =
            -((digitsValue u : Nat) : Int) := by
          unfold wrapInt64
          omega
        have hgt : ¬ 9223372036854775808 < digitsValue u := by omega
        simp [h45, hgt, hw]
      · simp only [h45, decide_False, Bool.false_eq_true, if_false, decide_eq_true_eq] at hfit
        have hw : wrapInt64 ((digitsValue u : Nat) : Int) = ((digitsValue u : Nat) : Int) := by
          unfold wrapInt64
          omega
        have hge : ¬ 9223372036854775808 ≤ digitsValue u := by omega
        simp [h45, hge, hw]
    · rw [if_neg hnum, if_neg hnum]
      rfl

/-- Function `Atoi` returns the numeric value of a string that fits an `int`, and 0 for
a string that is not numeric, on its fast path and on its slow path alike. -/
theorem Atoi_value (s : GoString) (hfit : fitsInt s = true) :
    (Atoi s).1 = (numericValue s).getD 0 := by
  cases s with
  | nil => exact ParseInt_value [] hfit
  | cons c rest =>
    unfold Atoi
    by_cases hlen : (c :: rest).length < 19
    · simp only [hlen, if_true]
      have hfast := atoiFastLoop_eq (unsignedPart (c :: rest)) 0
      rw [Nat.cast_zero] at hfast
      unfold numericValue
      have hneg : isNegative (c :: rest) = decide (c.val = 45) := rfl
      rw [hneg]
      by_cases hs : c.val = 45 ∨ c.val = 43
      · have hu : unsignedPart (c :: rest) = rest := by simp [unsignedPart, hs]
        rw [hu] at hfast ⊢
        by_cases hr : rest = []
        · subst hr
          simp [hs]
        · have hl : ¬ rest.length < 1 := by
            cases rest with
            | nil => exact absurd rfl hr
            | cons _ _ => simp
          simp only [hs, true_and, hl, if_false, if_true, hfast]
          by_cases ha : rest.all isDigit = true
          · rw [if_pos ha, if_pos ⟨hr, ha⟩]
            by_cases h45 : c.val = 45 <;> simp [h45, digitsValue]
          · rw [if_neg ha, if_neg (fun h => ha h.2)]
            rfl
      · have hu : unsignedPart (c :: rest) = c :: rest := by simp [unsignedPart, hs]
        rw [hu] at hfast ⊢
        have h45 : ¬ c.val = 45 := fun h => hs (Or.inl h)
        simp only [hs, false_and, if_false, hfast]
        by_cases ha : (c :: rest).all isDigit = true
        · rw [if_pos ha, if_pos ⟨by simp, ha⟩]
          simp [h45, digitsValue]
        · rw [if_neg ha, if_neg (fun h => ha h.2)]
          rfl
    · simp only [hlen, if_false]
      exact ParseInt_value (c :: rest) hfit

/-- The handler's `Atoi`-then-default pattern takes the default for a string that is not
numeric or denotes zero, and the numeric value otherwise, when the string fits an `int`. -/
theorem atoiOrDefault_eq (s : GoString) (dflt : Int) (hfit : fitsInt s = true) :
    atoiOrDefault s dflt =
      (match numericValue s with
       | none => dflt
       | some v => if v = 0 then dflt else v) := by
  unfold atoiOrDefault
  rw [Atoi_value s hfit]
  cases numericValue s <;> simp

/-- With the key absent, `Get` returns the empty string, which is not numeric. -/
theorem specParam_eq (q : Query) (key : String) (dflt : Int) :
    specParam q key dflt =
      (match numericValue (q.get key) with
       | none => dflt
       | some v => if v = 0 then dflt else v) := by
  unfold specParam Query.get
  cases q.find? (fun kv => kv.1 == key) with
  | none => rfl
  | some kv => rfl

/-! ## The `/cpu-load` parameters -/

section CpuLoad

variable {σ : Type} (sys : OS σ)

/-- C5 fails on digit runs that overflow an `int`: `strconv.Atoi` then returns the
largest `int` together with a range error, which the handler discards. For
`min=99999999999999999999` the specified M is 99999999999999999999 and for
`min=99999999999999999999abc` (not numeric) it is 2; the handler uses
9223372036854775807 for both. -/
theorem cpu_load_param_saturates :
    specParam [("min", ascii "99999999999999999999")] "min" 2 = 99999999999999999999 ∧
    (serve bareHost ⟨.cpuLoad, [("min", ascii "99999999999999999999")]⟩ bareWorld).2.body =
      "CPU Load started (9223372036854775807 min, 10 threads)" ∧
    specParam [("min", ascii "99999999999999999999abc")] "min" 2 = 2 ∧
    (serve bareHost ⟨.cpuLoad, [("min", ascii "99999999999999999999abc")]⟩ bareWorld).2.body =
      "CPU Load started (9223372036854775807 min, 10 threads)" ∧
    (serve bareHost ⟨.cpuLoad, [("min", ascii "99999999999999999999abc")]⟩ bareWorld).1.goroutines =
      [Task.cpuLoad 9223372036854775807 10] ∧
    fitsInt (ascii "99999999999999999999") = false ∧
    fitsInt (ascii "99999999999999999999abc") = false := by
  decide

/-- C5, amended: for query strings `min` and `thread` (each possibly absent) that do
not overflow (a numeric string has a value in the signed 64-bit range, and a string
that is not numeric does not start, after an optional sign, with digits denoting 2^64
or more), the response is 200 with body exactly "CPU Load started (M min, T threads)"
and the burster is started with (M, T), where M is 2 if `min` is unspecified,
non-numeric or zero and otherwise the integer value of `min`, and T is 10 if `thread`
is unspecified, non-numeric or zero and otherwise the integer value of `thread`. -/
theorem cpu_load_params (w : World σ) (q : Query)
    (hmin : fitsInt (q.get "min") = true) (hthread : fitsInt (q.get "thread") = true) :
    (serve sys ⟨.cpuLoad, q⟩ w).2 =
      ⟨200, [], "CPU Load started (" ++ fmtD (specParam q "min" 2) ++ " min, " ++
        fmtD (specParam q "thread" 10) ++ " threads)"⟩ ∧
    (serve sys ⟨.cpuLoad, q⟩ w).1.goroutines =
      w.goroutines ++ [Task.cpuLoad (specParam q "min" 2) (specParam q "thread" 10)] := by
  rw [specParam_eq, specParam_eq, ← atoiOrDefault_eq _ _ hmin, ← atoiOrDefault_eq _ _ hthread]
  exact ⟨rfl, rfl⟩

/-- The witness of C5 amended, on the inputs the claim names: `min=1&thread=2` gives
"1 min, 2 threads"; `min=0`, `min=abc` and an absent `min` give "2 min"; `thread=abc`,
`thread=0` and an absent `thread` give "10 threads". -/
theorem cpu_load_params_witness :
    (serve bareHost ⟨.cpuLoad, [("min", ascii "1"), ("thread", ascii "2")]⟩ bareWorld).2 =
      ⟨200, [], "CPU Load started (1 min, 2 threads)"⟩ ∧
    (serve bareHost ⟨.cpuLoad, [("min", ascii "1"), ("thread", ascii "2")]⟩ bareWorld).1.goroutines =
      [Task.cpuLoad 1 2] ∧
    (serve bareHost ⟨.cpuLoad, [("min", ascii "0"), ("thread", ascii "abc")]⟩ bareWorld).2 =
      ⟨200, [], "CPU Load started (2 min, 10 threads)"⟩ ∧
    (serve bareHost ⟨.cpuLoad, [("min", ascii "abc"), ("thread", ascii "0")]⟩ bareWorld).2 =
      ⟨200, [], "CPU Load started (2 min, 10 threads)"⟩ ∧
    (serve bareHost ⟨.cpuLoad, []⟩ bareWorld).2 =
      ⟨200, [], "CPU Load started (2 min, 10 threads)"⟩ := by
  have h1 := cpu_load_params bareHost bareWorld [("min", ascii "1"), ("thread", ascii "2")]
    (by decide) (by decide)
  have h2 := cpu_load_params bareHost bareWorld [("min", ascii "0"), ("thread", ascii "abc")]
    (by decide) (by decide)
  have h3 := cpu_load_params bareHost bareWorld [("min", ascii "abc"), ("thread", ascii "0")]
    (by decide) (by decide)
  have h4 := cpu_load_params bareHost bareWorld [] (by decide) (by decide)
  exact ⟨h1.1, h1.2, h2.1, h3.1, h4.1⟩

end CpuLoad

end WebGo
